import Mathlib

/-!
Verification of `api/shopify-webhook.js`: a serverless endpoint that verifies a
Shopify webhook signature, maps the order payload to a GA4 Measurement-Protocol
purchase event, and forwards it to the collector.

The JavaScript is shallowly embedded: JSON-style runtime values are the
inductive `JSVal`, JS truthiness and the `||` operator are `truthy`/`jsOr`,
property access is `getField` (plain access on a nullish base throws, so the
throwing variant is `strictField`; optional chaining `?.` is `optField`),
numbers are idealized as rationals, and every operation that can throw a
runtime `TypeError`/`RangeError` returns `Except String`.  External primitives
(the HMAC digest, `JSON.parse`, and the outbound `fetch`) are parameters of the
handler, collected in `ExternalOps`; the handler's behavior depends on them only
through their results, which is exactly how the source consumes them.
-/

/-- A JSON-style JavaScript runtime value.  Numbers are idealized as rationals
(the claims under verification do not exercise floating-point rounding). -/
inductive JSVal where
  | undefined
  | null
  | bool (b : Bool)
  | num (q : ℚ)
  | str (s : String)
  | arr (elems : List JSVal)
  | obj (fields : List (String × JSVal))

/-- JS truthiness: `undefined`, `null`, `false`, `0`, and `""` are falsy;
every other value (including every array and object) is truthy. -/
def truthy : JSVal → Bool
  | .undefined => false
  | .null => false
  | .bool b => b
  | .num q => q != 0
  | .str s => s != ""
  | .arr _ => true
  | .obj _ => true

/-- The JS `a || b` operator: `a` when `a` is truthy, otherwise `b`. -/
def jsOr (a b : JSVal) : JSVal := if truthy a then a else b

/-- Reading a named property.  Objects look the key up (first binding wins);
any other base — including arrays, which carry no named own-properties when
parsed from JSON — yields `undefined`. -/
def getField (v : JSVal) (k : String) : JSVal :=
  match v with
  | .obj fields =>
    match fields.find? (fun p => p.1 == k) with
    | some p => p.2
    | none => .undefined
  | _ => .undefined

/-- Optional chaining `v?.k`: `undefined` when the base is nullish, otherwise
an ordinary property read (primitives are boxed and never throw). -/
def optField (v : JSVal) (k : String) : JSVal :=
  match v with
  | .undefined => .undefined
  | .null => .undefined
  | _ => getField v k

/-- Plain property access `v.k`, which throws a `TypeError` when the base is
`null` or `undefined`. -/
def strictField (v : JSVal) (k : String) : Except String JSVal :=
  match v with
  | .undefined => .error "TypeError: cannot read properties of undefined"
  | .null => .error "TypeError: cannot read properties of null"
  | _ => .ok (getField v k)

/-- Indexing with literal `[0]`: first array element, first character of a
string, property `"0"` of an object, `undefined` otherwise. -/
def jsIndex0 (v : JSVal) : JSVal :=
  match v with
  | .arr [] => .undefined
  | .arr (x :: _) => x
  | .str s => if s = "" then .undefined else .str (String.singleton (s.get 0))
  | .obj _ => getField v "0"
  | _ => .undefined

/-- Optional indexing `v?.[0]`. -/
def optIndex0 (v : JSVal) : JSVal :=
  match v with
  | .undefined => .undefined
  | .null => .undefined
  | _ => jsIndex0 v

/-- Decimal rendering of a natural number, digit by digit. -/
def natToStr (n : Nat) : String :=
  if n < 10 then String.singleton (Nat.digitChar n)
  else natToStr (n / 10) ++ String.singleton (Nat.digitChar (n % 10))
termination_by n
decreasing_by exact Nat.div_lt_self (by omega) (by omega)

/-- Decimal expansion of the fractional part `rem/den`, up to a fuel bound
(the rationals the pipeline produces come from finite decimal literals, whose
expansion terminates well inside the bound). -/
def fracStr (den : Nat) : Nat → Nat → String
  | _, 0 => ""
  | rem, fuel + 1 =>
    if rem = 0 then ""
    else String.singleton (Nat.digitChar (rem * 10 / den)) ++ fracStr den (rem * 10 % den) fuel

/-- JS `String(n)` for a number: sign, integer part, and (when the value is
not integral) a dot followed by the decimal expansion. -/
def numToString (q : ℚ) : String :=
  (if q < 0 then "-" else "")
    ++ natToStr (q.num.natAbs / q.den)
    ++ (if q.num.natAbs % q.den = 0 then ""
        else "." ++ fracStr q.den (q.num.natAbs % q.den) 20)

mutual

/-- JS string coercion `String(v)`: `"undefined"`, `"null"`, `"true"`/`"false"`,
decimal for numbers, the string itself, comma-joined elements for arrays
(nullish elements render empty), and `"[object Object]"` for plain objects. -/
def jsToString : JSVal → String
  | .undefined => "undefined"
  | .null => "null"
  | .bool b => if b then "true" else "false"
  | .num q => numToString q
  | .str s => s
  | .arr xs => String.intercalate "," (jsListStrings xs)
  | .obj _ => "[object Object]"

/-- Element strings for array coercion. -/
def jsListStrings : List JSVal → List String
  | [] => []
  | .undefined :: rest => "" :: jsListStrings rest
  | .null :: rest => "" :: jsListStrings rest
  | v :: rest => jsToString v :: jsListStrings rest

end

/-- Numeric value of a digit list, most significant first. -/
def digitsVal (ds : List Char) : Nat :=
  ds.foldl (fun a c => a * 10 + (c.toNat - 48)) 0

/-- Split a character list into its leading run of decimal digits and the rest. -/
def spanDigits (cs : List Char) : List Char × List Char :=
  (cs.takeWhile Char.isDigit, cs.dropWhile Char.isDigit)

/-- Exponent suffix accepted by `parseFloat` (`e`/`E`, optional sign, digits);
a malformed suffix contributes exponent `0` because parsing just stops there. -/
def parseExp (cs : List Char) : Int :=
  match cs with
  | 'e' :: rest | 'E' :: rest =>
    match rest with
    | '+' :: r => (fun ds => if ds.isEmpty then 0 else (digitsVal ds : Int)) (spanDigits r).1
    | '-' :: r => (fun ds => if ds.isEmpty then 0 else -(digitsVal ds : Int)) (spanDigits r).1
    | r => (fun ds => if ds.isEmpty then 0 else (digitsVal ds : Int)) (spanDigits r).1
  | _ => 0

/-- JS `parseFloat` on a string: skip leading whitespace, optional sign,
digits with an optional fraction and exponent, ignoring any trailing garbage.
`none` stands for `NaN` (no digits at all); the non-finite `"Infinity"` forms
also map to `none` since the caller (`toNumber`) treats both alike via its
`Number.isFinite` guard. -/
def jsParseFloat (s : String) : Option ℚ :=
  let cs := s.toList.dropWhile (fun c => c = ' ' ∨ c = '\t' ∨ c = '\n' ∨ c = '\r')
  let signAndRest : ℚ × List Char :=
    match cs with
    | '+' :: r => (1, r)
    | '-' :: r => (-1, r)
    | r => (1, r)
  let intPart := spanDigits signAndRest.2
  let fracAndRest : List Char × List Char :=
    match intPart.2 with
    | '.' :: r => spanDigits r
    | r => ([], r)
  if intPart.1.isEmpty ∧ fracAndRest.1.isEmpty then none
  else
    let mant : ℚ :=
      (digitsVal intPart.1 : ℚ) + (digitsVal fracAndRest.1 : ℚ) / ((10 : ℚ) ^ fracAndRest.1.length)
    some (signAndRest.1 * mant * (10 : ℚ) ^ parseExp fracAndRest.2)

/-- The source's `toNumber` helper:
`const toNumber = (v, fallback = 0) => { const n = parseFloat(v); return Number.isFinite(n) ? n : fallback; }`.
`parseFloat` coerces its argument to a string first; for an argument that is
already a number the round trip is the identity. -/
def toNumber (v : JSVal) (fallback : ℚ) : ℚ :=
  match v with
  | .num q => q
  | _ =>
    match jsParseFloat (jsToString v) with
    | some q => q
    | none => fallback

/-- One entry of the GA4 `items` array, as built by the mapper.  Fields the
source computes with `||`-chains over untyped input keep type `JSVal`;
`item_id` is a `String` because the source wraps it in `String(...)`, and
`price` is numeric because it goes through `toNumber`. -/
structure Ga4Item where
  item_id : String
  item_name : JSVal
  quantity : JSVal
  price : ℚ
  item_brand : JSVal
  item_variant : JSVal

/-- The `params` of the purchase event.  Fields added by conditional spread
(`...(x ? { x } : {})`) are `Option JSVal`: `none` means the key is absent
from the serialized JSON (and `JSVal.undefined`-valued fields such as a
missing `coupon` are likewise dropped by `JSON.stringify`). -/
structure Ga4Params where
  transaction_id : String
  value : ℚ
  currency : JSVal
  tax : ℚ
  shipping : ℚ
  coupon : JSVal
  items : List Ga4Item
  gclid : Option JSVal
  gbraid : Option JSVal
  wbraid : Option JSVal
  utm_source : Option JSVal
  utm_medium : Option JSVal
  utm_campaign : Option JSVal
  utm_content : Option JSVal
  utm_term : Option JSVal

/-- One element of the `events` array. -/
structure Ga4EventEntry where
  name : String
  params : Ga4Params

/-- The full Measurement-Protocol payload (`ga4Event` in the source). -/
structure Ga4Event where
  client_id : String
  user_id : Option JSVal
  non_personalized_ads : Bool
  events : List Ga4EventEntry

/-- The JSON body of the handler's own HTTP response. -/
inductive RespBody where
  | err (message : String)
  | ok (sentTo : String) (gaResponse : String)

/-- An HTTP response produced by `res.status(n).json(body)`. -/
structure Response where
  status : Nat
  body : RespBody

/-- Environment-sourced configuration, read at module load.
`SHOPIFY_WEBHOOK_SECRET` is normalized with `|| ""`, so the unset state is the
empty string; `GA4_DEBUG_MODE` is compared against the literal `"1"`. -/
structure Config where
  measurementId : String
  apiSecret : String
  shopifyWebhookSecret : String
  ga4DebugMode : Option String

/-- External primitives the handler consumes: `crypto.createHmac("sha256", secret).update(body, "utf8").digest("base64")`,
`JSON.parse`, and `fetch` + `.text()` (the posted body is the serialization of
the event, so the call is modeled as receiving the event itself). -/
structure ExternalOps where
  hmacBase64 : String → String → String
  parseJson : String → Except String JSVal
  fetchText : String → Ga4Event → Except String String

/-- `const attributes = order?.note_attributes || [];` -/
def attributesOf (order : JSVal) : JSVal :=
  jsOr (optField order "note_attributes") (.arr [])

/-- ASCII case-folding — the fragment of `String.prototype.toLowerCase` that
attribute names and the fixed lookup keys exercise. -/
def lowerChar (c : Char) : Char :=
  if 'A' ≤ c ∧ c ≤ 'Z' then Char.ofNat (c.toNat + 32) else c

/-- Lowercasing a string character by character. -/
def toLowerAscii (s : String) : String := ⟨s.data.map lowerChar⟩

/-- The search inside `getAttr`:
`attributes.find((a) => a.name?.toLowerCase() === key.toLowerCase())`.
A nullish element throws on `a.name`; a `name` that is neither nullish nor a
string throws on `.toLowerCase()`; otherwise non-matching elements are
skipped. -/
def findAttr (key : String) : List JSVal → Except String (Option JSVal)
  | [] => .ok none
  | a :: rest =>
    match a with
    | .undefined => .error "TypeError: cannot read properties of undefined"
    | .null => .error "TypeError: cannot read properties of null"
    | _ =>
      match getField a "name" with
      | .str s =>
        if toLowerAscii s = toLowerAscii key then .ok (some a) else findAttr key rest
      | .undefined => findAttr key rest
      | .null => findAttr key rest
      | _ => .error "TypeError: toLowerCase is not a function"

/-- `const getAttr = (key) => attributes.find(...)?.value;` — throws when
`attributes` is a truthy non-array (no `.find` method). -/
def getAttr (attributes : JSVal) (key : String) : Except String JSVal :=
  match attributes with
  | .arr xs => do
    match ← findAttr key xs with
    | some a => .ok (optField a "value")
    | none => .ok .undefined
  | _ => .error "TypeError: find is not a function"

/-- `const clientId = getAttr("client_id") || getAttr("_ga_cid") || (order.customer?.id ? String(order.customer.id) : String(order.id));`
with JS short-circuit evaluation: later alternatives (and their potential
throws) are only evaluated when every earlier one is falsy. -/
def clientId (order attributes : JSVal) : Except String JSVal := do
  let a ← getAttr attributes "client_id"
  if truthy a then return a
  let b ← getAttr attributes "_ga_cid"
  if truthy b then return b
  let cust ← strictField order "customer"
  if truthy (optField cust "id") then
    return .str (jsToString (getField cust "id"))
  else
    return .str (jsToString (getField order "id"))

/-- The arrow body of `(order.line_items || []).map((item) => ({...}))` — a
nullish `item` throws on `item.product_id`; otherwise every access is safe. -/
def mapItem (order item : JSVal) : Except String Ga4Item :=
  match item with
  | .undefined => .error "TypeError: cannot read properties of undefined"
  | .null => .error "TypeError: cannot read properties of null"
  | _ => .ok
    { item_id := jsToString (jsOr (getField item "product_id")
        (jsOr (getField item "sku") (jsOr (getField item "variant_id") (getField item "id"))))
      item_name := jsOr (getField item "title") (getField item "name")
      quantity := jsOr (getField item "quantity") (.num 1)
      price := toNumber (jsOr (getField item "price")
        (jsOr (optField (optField (getField item "price_set") "shop_money") "amount") (.num 0))) 0
      item_brand := jsOr (optField (optField order "line_items") "vendor") .undefined
      item_variant := jsOr (getField item "variant_title") .undefined }

/-- Sequential `Array.prototype.map` in the throwing model. -/
def mapItems (order : JSVal) : List JSVal → Except String (List Ga4Item)
  | [] => .ok []
  | item :: rest => do
    let g ← mapItem order item
    let gs ← mapItems order rest
    .ok (g :: gs)

/-- `const items = (order.line_items || []).map(...) || [];` — the plain
access `order.line_items` throws on a nullish order, a truthy non-array value
has no `.map`, and the trailing `|| []` is dead code because `.map` always
returns a (truthy) array. -/
def itemsOf (order : JSVal) : Except String (List Ga4Item) := do
  let liRaw ← strictField order "line_items"
  match jsOr liRaw (.arr []) with
  | .arr xs => mapItems order xs
  | _ => .error "TypeError: map is not a function"

/-- The `ga4Event` object literal, as a function of the already-evaluated
`clientId`, raw attribution lookups, and `items`.  `userId` is
`order?.customer?.email || null`; each attribution constant is
`getAttr(...) || null` and enters `params` through `...(x ? { x } : {})`. -/
def buildEvent (order cid gclidR gbraidR wbraidR utmSourceR utmMediumR utmCampaignR
    utmContentR utmTermR : JSVal) (items : List Ga4Item) : Ga4Event :=
  let userId := jsOr (optField (optField order "customer") "email") .null
  let gclid := jsOr gclidR .null
  let gbraid := jsOr gbraidR .null
  let wbraid := jsOr wbraidR .null
  let utmSource := jsOr utmSourceR .null
  let utmMedium := jsOr utmMediumR .null
  let utmCampaign := jsOr utmCampaignR .null
  let utmContent := jsOr utmContentR .null
  let utmTerm := jsOr utmTermR .null
  { client_id := jsToString cid
    user_id := if truthy userId then some userId else none
    non_personalized_ads := false
    events := [{
      name := "purchase"
      params := {
        transaction_id := jsToString (getField order "id")
        value := toNumber (jsOr (getField order "total_price")
          (jsOr (getField order "current_total_price")
            (optField (optField (getField order "total_price_set") "shop_money") "amount"))) 0
        currency := jsOr (getField order "currency")
          (jsOr (getField order "presentment_currency") (.str "INR"))
        tax := toNumber (jsOr (getField order "total_tax") (.num 0)) 0
        shipping := toNumber (jsOr (optField (optField
          (getField order "total_shipping_price_set") "shop_money") "amount") (.num 0)) 0
        coupon := jsOr (optField (optIndex0 (getField order "discount_codes")) "code") .undefined
        items := items
        gclid := if truthy gclid then some gclid else none
        gbraid := if truthy gbraid then some gbraid else none
        wbraid := if truthy wbraid then some wbraid else none
        utm_source := if truthy utmSource then some utmSource else none
        utm_medium := if truthy utmMedium then some utmMedium else none
        utm_campaign := if truthy utmCampaign then some utmCampaign else none
        utm_content := if truthy utmContent then some utmContent else none
        utm_term := if truthy utmTerm then some utmTerm else none } }] }

/-- The whole `order -> ga4Event` mapping section of the handler, in source
evaluation order: `attributes`, `clientId`, the attribution lookups, `items`,
then the object literal. -/
def mapOrder (order : JSVal) : Except String Ga4Event := do
  let attributes := attributesOf order
  let cid ← clientId order attributes
  let gclidR ← getAttr attributes "gclid"
  let gbraidR ← getAttr attributes "gbraid"
  let wbraidR ← getAttr attributes "wbraid"
  let utmSourceR ← getAttr attributes "utm_source"
  let utmMediumR ← getAttr attributes "utm_medium"
  let utmCampaignR ← getAttr attributes "utm_campaign"
  let utmContentR ← getAttr attributes "utm_content"
  let utmTermR ← getAttr attributes "utm_term"
  let items ← itemsOf order
  .ok (buildEvent order cid gclidR gbraidR wbraidR utmSourceR utmMediumR utmCampaignR
    utmContentR utmTermR items)

/-- `GA4_ENDPOINT` — the live collector URL. -/
def ga4Endpoint (cfg : Config) : String :=
  "https://www.google-analytics.com/mp/collect?measurement_id=" ++ cfg.measurementId
    ++ "&api_secret=" ++ cfg.apiSecret

/-- `GA4_DEBUG` — the debug/validation collector URL. -/
def ga4Debug (cfg : Config) : String :=
  "https://www.google-analytics.com/debug/mp/collect?measurement_id=" ++ cfg.measurementId
    ++ "&api_secret=" ++ cfg.apiSecret

/-- `const endpoint = process.env.GA4_DEBUG_MODE === "1" ? GA4_DEBUG : GA4_ENDPOINT;` -/
def selectedEndpoint (cfg : Config) : String :=
  if cfg.ga4DebugMode = some "1" then ga4Debug cfg else ga4Endpoint cfg

/-- Substring test on character lists, for JS `String.prototype.includes`. -/
def hasSubstr (sub : List Char) : List Char → Bool
  | [] => sub.isEmpty
  | c :: cs => sub.isPrefixOf (c :: cs) || hasSubstr sub cs

/-- JS `s.includes(sub)`. -/
def strIncludes (s sub : String) : Bool := hasSubstr sub.toList s.toList

/-- Node's `crypto.timingSafeEqual(Buffer.from(a), Buffer.from(b))`: throws a
`RangeError` when the two byte buffers differ in length, and otherwise reports
byte equality (UTF-8 encoded strings are equal as buffers iff equal as
strings). -/
def timingSafeEqual (a b : String) : Except String Bool :=
  if a.utf8ByteSize = b.utf8ByteSize then .ok (a == b)
  else .error "RangeError: Input buffers must have the same byte length"

/-- `verifyShopifyHmac(req, rawBody)`: skip verification entirely when the
secret is unset; reject when the header is missing/empty (falsy); otherwise
compare the header against base64(HMAC-SHA256(secret, rawBody)) with
`crypto.timingSafeEqual`.  The header is `Option String` (`none` = header
absent from the request). -/
def verifyShopifyHmac (cfg : Config) (ext : ExternalOps) (header : Option String)
    (rawBody : String) : Except String Bool :=
  if cfg.shopifyWebhookSecret = "" then .ok true
  else
    match header with
    | none => .ok false
    | some h =>
      if h = "" then .ok false
      else timingSafeEqual h (ext.hmacBase64 cfg.shopifyWebhookSecret rawBody)

/-- Everything the handler does before the outbound `fetch`: the method gate,
HMAC verification, `JSON.parse`, the order-to-event mapping, and endpoint
selection.  `.inl` is an early `return res.status(...)`; `.inr` carries the
endpoint and event about to be posted. -/
def handlerPre (cfg : Config) (ext : ExternalOps) (method : String) (header : Option String)
    (rawBody : String) : Except String (Sum Response (String × Ga4Event)) := do
  if method ≠ "POST" then
    return .inl { status := 405, body := .err "Method not allowed" }
  let authentic ← verifyShopifyHmac cfg ext header rawBody
  if !authentic then
    return .inl { status := 401, body := .err "Invalid HMAC signature" }
  let order ← ext.parseJson rawBody
  let ev ← mapOrder order
  return .inr (selectedEndpoint cfg, ev)

/-- The exported handler: runs the pre-fetch stage, performs the outbound call,
and maps every thrown exception (at whichever stage) to the catch-all
`500 {"error": "Internal error"}` response. -/
def handler (cfg : Config) (ext : ExternalOps) (method : String) (header : Option String)
    (rawBody : String) : Response :=
  match handlerPre cfg ext method header rawBody with
  | .error _ => { status := 500, body := .err "Internal error" }
  | .ok (.inl r) => r
  | .ok (.inr (endpoint, ev)) =>
    match ext.fetchText endpoint ev with
    | .error _ => { status := 500, body := .err "Internal error" }
    | .ok text =>
      { status := 200
        body := .ok (if strIncludes endpoint "/debug/" then "GA4 DEBUG" else "GA4") text }

/-- The outbound calls a given invocation issues to the collector: one `fetch`
when control reaches the forwarding step, none otherwise. -/
def collectorCalls (cfg : Config) (ext : ExternalOps) (method : String) (header : Option String)
    (rawBody : String) : List (String × Ga4Event) :=
  match handlerPre cfg ext method header rawBody with
  | .ok (.inr (endpoint, ev)) => [(endpoint, ev)]
  | _ => []

theorem bind_ok_iff {ε α β : Type} (x : Except ε α) (f : α → Except ε β) (b : β) :
    (x >>= f) = Except.ok b ↔ ∃ a, x = Except.ok a ∧ f a = Except.ok b := by
  cases x with
  | error e => simp [Bind.bind, Except.bind]
  | ok a => simp [Bind.bind, Except.bind]

theorem pure_ok_iff {ε α : Type} (a b : α) :
    (pure a : Except ε α) = Except.ok b ↔ a = b := by
  simp [pure, Except.pure]

/-- Inverting a successful run of the mapping section: every intermediate
lookup succeeded and the event is the corresponding `buildEvent`. -/
theorem mapOrder_ok_inv (order : JSVal) (ev : Ga4Event) (h : mapOrder order = Except.ok ev) :
    ∃ cid g1 g2 g3 u1 u2 u3 u4 u5 its,
      clientId order (attributesOf order) = .ok cid ∧
      getAttr (attributesOf order) "gclid" = .ok g1 ∧
      getAttr (attributesOf order) "gbraid" = .ok g2 ∧
      getAttr (attributesOf order) "wbraid" = .ok g3 ∧
      getAttr (attributesOf order) "utm_source" = .ok u1 ∧
      getAttr (attributesOf order) "utm_medium" = .ok u2 ∧
      getAttr (attributesOf order) "utm_campaign" = .ok u3 ∧
      getAttr (attributesOf order) "utm_content" = .ok u4 ∧
      getAttr (attributesOf order) "utm_term" = .ok u5 ∧
      itemsOf order = .ok its ∧
      ev = buildEvent order cid g1 g2 g3 u1 u2 u3 u4 u5 its := by
  unfold mapOrder at h
  simp only [bind_ok_iff] at h
  obtain ⟨cid, hc, h⟩ := h
  obtain ⟨g1, h1, h⟩ := h
  obtain ⟨g2, h2, h⟩ := h
  obtain ⟨g3, h3, h⟩ := h
  obtain ⟨u1, h4, h⟩ := h
  obtain ⟨u2, h5, h⟩ := h
  obtain ⟨u3, h6, h⟩ := h
  obtain ⟨u4, h7, h⟩ := h
  obtain ⟨u5, h8, h⟩ := h
  obtain ⟨its, h9, h⟩ := h
  exact ⟨cid, g1, g2, g3, u1, u2, u3, u4, u5, its,
    hc, h1, h2, h3, h4, h5, h6, h7, h8, h9, (Except.ok.inj h).symm⟩

/-- Primitive (non-array, non-object) values — the shapes JS string coercion
turns into a fixed non-empty word, a decimal, or the string itself. -/
def isPrim : JSVal → Bool
  | .arr _ => false
  | .obj _ => false
  | _ => true

theorem natToStr_length_pos (n : Nat) : 0 < (natToStr n).length := by
  unfold natToStr
  split
  · simp
  · rw [String.length_append]
    simp

theorem numToString_ne_empty (q : ℚ) : numToString q ≠ "" := by
  intro h
  have hl := congrArg String.length h
  unfold numToString at hl
  rw [String.length_append, String.length_append] at hl
  have := natToStr_length_pos (q.num.natAbs / q.den)
  simp [String.length_empty] at hl
  omega

theorem jsToString_prim_ne_empty (v : JSVal) (h1 : isPrim v = true) (h2 : v ≠ .str "") :
    jsToString v ≠ "" := by
  cases v with
  | undefined => simp [jsToString]
  | null => simp [jsToString]
  | bool b => cases b <;> simp [jsToString]
  | num q => exact numToString_ne_empty q
  | str s =>
    simp only [jsToString]
    intro hs
    exact h2 (by rw [hs])
  | arr xs => simp [isPrim] at h1
  | obj fs => simp [isPrim] at h1

/-- `toNumber` of a falsy value with fallback `0` is `0`: `undefined`, `null`,
`false`, and `""` all fail `parseFloat`, and the falsy number is `0` itself. -/
theorem toNumber_falsy (v : JSVal) (h : truthy v = false) : toNumber v 0 = 0 := by
  cases v with
  | undefined => decide
  | null => decide
  | bool b =>
    simp only [truthy] at h
    subst h
    decide
  | num q =>
    simp only [truthy, bne_eq_false_iff_eq] at h
    simpa [toNumber] using h
  | str s =>
    simp only [truthy, bne_eq_false_iff_eq] at h
    subst h
    decide
  | arr xs => simp [truthy] at h
  | obj fs => simp [truthy] at h

/-- An early return from the pre-fetch stage is exactly the 405 or the 401
response. -/
theorem handlerPre_inl_cases (cfg : Config) (ext : ExternalOps) (method : String)
    (header : Option String) (raw : String) (r : Response)
    (h : handlerPre cfg ext method header raw = .ok (.inl r)) :
    r = { status := 405, body := .err "Method not allowed" } ∨
    r = { status := 401, body := .err "Invalid HMAC signature" } := by
  unfold handlerPre at h
  split at h
  · left
    simp only [pure_ok_iff, Sum.inl.injEq] at h
    exact h.symm
  · simp only [bind_ok_iff, pure_ok_iff] at h
    obtain ⟨a, ha, h⟩ := h
    obtain ⟨b, hb, h⟩ := h
    split at h
    · right
      simp only [pure_ok_iff, Sum.inl.injEq] at h
      exact h.symm
    · simp only [bind_ok_iff, pure_ok_iff] at h
      obtain ⟨o, ho, h⟩ := h
      obtain ⟨ev, he, h⟩ := h
      simp at h

/-- C9: every parse failure, transport failure, or unexpected exception is
caught at the handler's outermost boundary and collapsed into the single
`500 {"error": "Internal error"}` response; every invocation — for any
configuration, external behavior, method, header, and raw body — produces
exactly one JSON response, which is the 405 method rejection, the 401
signature rejection, a 200 success envelope, or that generic 500; no
exception escapes to the runtime (the handler is a total function into
`Response`). -/
theorem C9_definitive_response (cfg : Config) (ext : ExternalOps) (method : String)
    (header : Option String) (raw : String) :
    handler cfg ext method header raw = { status := 405, body := .err "Method not allowed" } ∨
    handler cfg ext method header raw = { status := 401, body := .err "Invalid HMAC signature" } ∨
    (∃ s t, handler cfg ext method header raw = { status := 200, body := .ok s t }) ∨
    handler cfg ext method header raw = { status := 500, body := .err "Internal error" } := by
  unfold handler
  cases hp : handlerPre cfg ext method header raw with
  | error e => right; right; right; rfl
  | ok v =>
    cases v with
    | inl r =>
      rcases handlerPre_inl_cases cfg ext method header raw r hp with h | h
      · left; rw [h]
      · right; left; rw [h]
    | inr p =>
      obtain ⟨ep, ev⟩ := p
      cases hf : ext.fetchText ep ev with
      | error e => right; right; right; simp [hf]
      | ok t =>
        right; right; left
        exact ⟨if strIncludes ep "/debug/" then "GA4 DEBUG" else "GA4", t, by simp [hf]⟩

/-- C2: when the shared secret is not configured (the empty string, which is
how the source normalizes an unset `SHOPIFY_WEBHOOK_SECRET`), verification
succeeds for every raw body and every value or absence of the signature
header — `verifyShopifyHmac` returns `true` — and the request is treated as
authentic: a POST is never answered with the 401 rejection. -/
theorem C2_bypass_when_secret_unset (cfg : Config) (ext : ExternalOps)
    (header : Option String) (raw : String) (h : cfg.shopifyWebhookSecret = "") :
    verifyShopifyHmac cfg ext header raw = .ok true ∧
    (handler cfg ext "POST" header raw).status ≠ 401 := by
  have hv : verifyShopifyHmac cfg ext header raw = .ok true := by
    unfold verifyShopifyHmac
    rw [if_pos h]
  refine ⟨hv, ?_⟩
  unfold handler
  cases hp : handlerPre cfg ext "POST" header raw with
  | error e => simp
  | ok v =>
    cases v with
    | inl r =>
      exfalso
      unfold handlerPre at hp
      rw [if_neg (by simp)] at hp
      simp only [bind_ok_iff, pure_ok_iff] at hp
      obtain ⟨a, ha, hp⟩ := hp
      obtain ⟨b, hb, hp⟩ := hp
      rw [hv] at hb
      have hb' : b = true := (Except.ok.inj hb).symm
      subst hb'
      rw [if_neg (by simp)] at hp
      simp only [bind_ok_iff, pure_ok_iff] at hp
      obtain ⟨o, ho, hp⟩ := hp
      obtain ⟨ev, he, hp⟩ := hp
      simp at hp
    | inr p =>
      obtain ⟨ep, ev⟩ := p
      cases hf : ext.fetchText ep ev with
      | error e => simp [hf]
      | ok t => simp [hf]

/-- Closed instance of C2: with an unset secret, a concrete request with no
header at all verifies as authentic and is not rejected with 401. -/
theorem C2_witness :
    verifyShopifyHmac
        { measurementId := "G-X", apiSecret := "s", shopifyWebhookSecret := "", ga4DebugMode := none }
        { hmacBase64 := fun _ _ => "", parseJson := fun _ => .error "bad json",
          fetchText := fun _ _ => .ok "" }
        none "{}" = .ok true ∧
    (handler
        { measurementId := "G-X", apiSecret := "s", shopifyWebhookSecret := "", ga4DebugMode := none }
        { hmacBase64 := fun _ _ => "", parseJson := fun _ => .error "bad json",
          fetchText := fun _ _ => .ok "" }
        "POST" none "{}").status ≠ 401 :=
  C2_bypass_when_secret_unset _ _ none "{}" rfl

/-- When verification returns `false`, a POST is answered 401 and the collector
is never called. -/
theorem handler_verify_false (cfg : Config) (ext : ExternalOps) (header : Option String)
    (raw : String) (hv : verifyShopifyHmac cfg ext header raw = .ok false) :
    handler cfg ext "POST" header raw = { status := 401, body := .err "Invalid HMAC signature" } ∧
    collectorCalls cfg ext "POST" header raw = [] := by
  have hp : handlerPre cfg ext "POST" header raw =
      .ok (.inl { status := 401, body := .err "Invalid HMAC signature" }) := by
    unfold handlerPre
    rw [if_neg (by simp), hv]
    rfl
  unfold handler collectorCalls
  rw [hp]
  exact ⟨rfl, rfl⟩

/-- When verification itself throws, a POST is answered with the generic 500
and the collector is never called. -/
theorem handler_verify_error (cfg : Config) (ext : ExternalOps) (header : Option String)
    (raw : String) (e : String) (hv : verifyShopifyHmac cfg ext header raw = .error e) :
    handler cfg ext "POST" header raw = { status := 500, body := .err "Internal error" } ∧
    collectorCalls cfg ext "POST" header raw = [] := by
  have hp : handlerPre cfg ext "POST" header raw = .error e := by
    unfold handlerPre
    rw [if_neg (by simp), hv]
    rfl
  unfold handler collectorCalls
  rw [hp]
  exact ⟨rfl, rfl⟩

/-- Counterexample to C1 as stated: with a configured secret, a header that is
a strict prefix of the correct base64 digest (here the first 10 characters of
the 44-character digest) is answered 500, not 401 — `crypto.timingSafeEqual`
throws a `RangeError` on buffers of different lengths and the outer catch
converts it into the generic internal-error response. -/
theorem C1_counterexample :
    "AAAAAAAAAAAAAAAAAAAAAAAAAAAAAAAAAAAAAAAAAAA=".take 10 = "AAAAAAAAAA" ∧
    (handler
      { measurementId := "G-X", apiSecret := "s", shopifyWebhookSecret := "shh", ga4DebugMode := none }
      { hmacBase64 := fun _ _ => "AAAAAAAAAAAAAAAAAAAAAAAAAAAAAAAAAAAAAAAAAAA=",
        parseJson := fun _ => .error "unreached", fetchText := fun _ _ => .ok "" }
      "POST" (some "AAAAAAAAAA") "body")
      = { status := 500, body := .err "Internal error" } ∧
    (handler
      { measurementId := "G-X", apiSecret := "s", shopifyWebhookSecret := "shh", ga4DebugMode := none }
      { hmacBase64 := fun _ _ => "AAAAAAAAAAAAAAAAAAAAAAAAAAAAAAAAAAAAAAAAAAA=",
        parseJson := fun _ => .error "unreached", fetchText := fun _ _ => .ok "" }
      "POST" (some "AAAAAAAAAA") "body").status ≠ 401 := by
  refine ⟨rfl, rfl, ?_⟩
  decide

/-- C1 (amended): with a configured secret, a request whose signature header
is absent, empty, or present with the same byte length as
base64(HMAC-SHA256(secret, body)) but a different value is answered
`401 {"error": "Invalid HMAC signature"}` with no outbound call; a non-empty
header whose byte length differs from the digest's (in particular any strict
substring/prefix of the correct value) makes `crypto.timingSafeEqual` throw,
so it is answered `500 {"error": "Internal error"}` — still with no outbound
call. -/
theorem C1_amended (cfg : Config) (ext : ExternalOps) (header : Option String) (raw : String)
    (hsec : cfg.shopifyWebhookSecret ≠ "") :
    ((header = none ∨ header = some "" ∨
        (∃ h, header = some h ∧
          h.utf8ByteSize = (ext.hmacBase64 cfg.shopifyWebhookSecret raw).utf8ByteSize ∧
          h ≠ ext.hmacBase64 cfg.shopifyWebhookSecret raw)) →
      handler cfg ext "POST" header raw = { status := 401, body := .err "Invalid HMAC signature" } ∧
      collectorCalls cfg ext "POST" header raw = []) ∧
    (∀ h, header = some h → h ≠ "" →
      h.utf8ByteSize ≠ (ext.hmacBase64 cfg.shopifyWebhookSecret raw).utf8ByteSize →
      handler cfg ext "POST" header raw = { status := 500, body := .err "Internal error" } ∧
      collectorCalls cfg ext "POST" header raw = []) := by
  constructor
  · intro hcase
    have hv : verifyShopifyHmac cfg ext header raw = .ok false := by
      unfold verifyShopifyHmac
      rw [if_neg hsec]
      rcases hcase with h1 | h2 | ⟨h, hh, hlen, hne⟩
      · rw [h1]
      · rw [h2]; rfl
      · rw [hh]
        show (if h = "" then Except.ok false
          else timingSafeEqual h (ext.hmacBase64 cfg.shopifyWebhookSecret raw)) = Except.ok false
        by_cases he : h = ""
        · rw [if_pos he]
        · rw [if_neg he]
          unfold timingSafeEqual
          rw [if_pos hlen]
          simp [hne]
    exact handler_verify_false cfg ext header raw hv
  · intro h hh hne hlen
    have hv : verifyShopifyHmac cfg ext header raw =
        .error "RangeError: Input buffers must have the same byte length" := by
      unfold verifyShopifyHmac
      rw [if_neg hsec, hh]
      show (if h = "" then Except.ok false
        else timingSafeEqual h (ext.hmacBase64 cfg.shopifyWebhookSecret raw)) = _
      rw [if_neg hne]
      unfold timingSafeEqual
      rw [if_neg hlen]
    exact handler_verify_error cfg ext header raw _ hv

/-- Closed instance of C1 (amended): with secret `"shh"` and the header
absent, the concrete request gets the 401 rejection and no collector call. -/
theorem C1_witness :
    handler
      { measurementId := "G-X", apiSecret := "s", shopifyWebhookSecret := "shh", ga4DebugMode := none }
      { hmacBase64 := fun _ _ => "AAAAAAAAAAAAAAAAAAAAAAAAAAAAAAAAAAAAAAAAAAA=",
        parseJson := fun _ => .error "unreached", fetchText := fun _ _ => .ok "" }
      "POST" none "body" = { status := 401, body := .err "Invalid HMAC signature" } ∧
    collectorCalls
      { measurementId := "G-X", apiSecret := "s", shopifyWebhookSecret := "shh", ga4DebugMode := none }
      { hmacBase64 := fun _ _ => "AAAAAAAAAAAAAAAAAAAAAAAAAAAAAAAAAAAAAAAAAAA=",
        parseJson := fun _ => .error "unreached", fetchText := fun _ _ => .ok "" }
      "POST" none "body" = [] :=
  (C1_amended _ _ none "body" (by decide)).1 (Or.inl rfl)

theorem ok_bind {ε α β : Type} (a : α) (f : α → Except ε β) :
    (Except.ok a >>= f) = f a := rfl

theorem truthy_ne_str_empty (v : JSVal) (h : truthy v = true) : v ≠ .str "" := by
  intro e
  subst e
  simp [truthy] at h

theorem optField_eq_getField (v : JSVal) (k : String) : optField v k = getField v k := by
  cases v <;> rfl

/-- Counterexample to C3 as stated: the order `{"id": ""}` has an id, yet the
resulting `client_id` is the empty string — `String(order.id)` simply passes
the empty string through. -/
theorem C3_counterexample :
    Except.map Ga4Event.client_id (mapOrder (.obj [("id", .str "")])) = .ok "" := rfl

/-- C3 (amended): the client identifier is resolved by the first *truthy*
value in priority order — the `client_id` tracking attribute, then the
`_ga_cid` tracking attribute, then the stringified customer id when it is
truthy, else the stringified order id (an attribute present with a falsy
value, such as the empty string, is skipped rather than chosen); and for
every order whose id and relevant lookups are primitive values and whose id
is not the empty string, the resulting `client_id` is a non-empty string. -/
theorem C3_amended (order : JSVal) (a b : JSVal)
    (ha : getAttr (attributesOf order) "client_id" = .ok a)
    (hb : getAttr (attributesOf order) "_ga_cid" = .ok b) :
    (truthy a = true → clientId order (attributesOf order) = .ok a) ∧
    (truthy a = false → truthy b = true → clientId order (attributesOf order) = .ok b) ∧
    (∀ cust, truthy a = false → truthy b = false →
      strictField order "customer" = .ok cust →
      clientId order (attributesOf order) =
        .ok (.str (if truthy (optField cust "id") then jsToString (getField cust "id")
          else jsToString (getField order "id")))) ∧
    (∀ ev, mapOrder order = .ok ev →
      isPrim a = true → isPrim b = true →
      (∀ cust, strictField order "customer" = .ok cust → isPrim (optField cust "id") = true) →
      isPrim (getField order "id") = true → getField order "id" ≠ .str "" →
      ev.client_id ≠ "") := by
  refine ⟨?_, ?_, ?_, ?_⟩
  · intro h1
    unfold clientId
    rw [ha, ok_bind, if_pos h1]
    rfl
  · intro h1 h2
    unfold clientId
    rw [ha, ok_bind, if_neg (by simp [h1]), hb, ok_bind, if_pos h2]
    rfl
  · intro cust h1 h2 hcust
    unfold clientId
    rw [ha, ok_bind, if_neg (by simp [h1]), hb, ok_bind, if_neg (by simp [h2]), hcust, ok_bind]
    split <;> rfl
  · intro ev hev hpa hpb hpc hpid hidne
    obtain ⟨cid, g1, g2, g3, u1, u2, u3, u4, u5, its, hc, -, -, -, -, -, -, -, -, -, hevb⟩ :=
      mapOrder_ok_inv order ev hev
    have hcl : ev.client_id = jsToString cid := by rw [hevb]; rfl
    unfold clientId at hc
    rw [ha, ok_bind] at hc
    by_cases h1 : truthy a = true
    · rw [if_pos h1] at hc
      have hca : cid = a := (Except.ok.inj hc).symm
      rw [hcl, hca]
      exact jsToString_prim_ne_empty a hpa (truthy_ne_str_empty a h1)
    · rw [if_neg h1, hb, ok_bind] at hc
      by_cases h2 : truthy b = true
      · rw [if_pos h2] at hc
        have hcb : cid = b := (Except.ok.inj hc).symm
        rw [hcl, hcb]
        exact jsToString_prim_ne_empty b hpb (truthy_ne_str_empty b h2)
      · rw [if_neg h2] at hc
        simp only [bind_ok_iff, pure_ok_iff, true_and, exists_const] at hc
        obtain ⟨cust, hcust, hc⟩ := hc
        split at hc
        · have hc2 : JSVal.str (jsToString (getField cust "id")) = cid := Except.ok.inj hc
          rw [hcl, ← hc2]
          show jsToString (getField cust "id") ≠ ""
          rw [← optField_eq_getField]
          exact jsToString_prim_ne_empty _ (hpc cust hcust)
            (truthy_ne_str_empty _ (by assumption))
        · have hc2 : JSVal.str (jsToString (getField order "id")) = cid := Except.ok.inj hc
          rw [hcl, ← hc2]
          show jsToString (getField order "id") ≠ ""
          exact jsToString_prim_ne_empty _ hpid hidne

/-- Closed instance of C3 (amended): for the P3 example — a `client_id`
attribute `"abc"` alongside customer id 555 and order id 1001 — the attribute
wins. -/
theorem C3_witness :
    clientId
      (.obj [("note_attributes", .arr [.obj [("name", .str "client_id"), ("value", .str "abc")]]),
        ("customer", .obj [("id", .num 555)]), ("id", .num 1001)])
      (attributesOf
        (.obj [("note_attributes", .arr [.obj [("name", .str "client_id"), ("value", .str "abc")]]),
          ("customer", .obj [("id", .num 555)]), ("id", .num 1001)])) = .ok (.str "abc") :=
  (C3_amended
    (.obj [("note_attributes", .arr [.obj [("name", .str "client_id"), ("value", .str "abc")]]),
      ("customer", .obj [("id", .num 555)]), ("id", .num 1001)])
    (.str "abc") .undefined rfl rfl).1 rfl

/-- A successful `mapItem` pins the normalized quantity and price to their
defining expressions. -/
theorem mapItem_ok_inv (order item : JSVal) (ga : Ga4Item) (h : mapItem order item = .ok ga) :
    ga.quantity = jsOr (getField item "quantity") (.num 1) ∧
    ga.price = toNumber (jsOr (getField item "price")
      (jsOr (optField (optField (getField item "price_set") "shop_money") "amount") (.num 0))) 0 ∧
    ga.item_brand = jsOr (optField (optField order "line_items") "vendor") .undefined := by
  cases item <;> simp only [mapItem, reduceCtorEq, Except.ok.injEq] at h <;>
    (subst h; exact ⟨rfl, rfl, rfl⟩)

/-- C4: for every source line item (processed against any order), the
normalized price degrades to `0` when the price is missing from both shapes
(flat `price` and nested `price_set.shop_money.amount`), and likewise when
the selected price value is a string on which `parseFloat` fails (such as
`"not-a-number"`); and any falsy quantity (`0`, `null`, `undefined`, `""`,
absence) is normalized to `1`.  Normalized prices are rationals by type, so a
non-numeric value is never propagated. -/
theorem C4_numeric_defaulting (order item : JSVal) (ga : Ga4Item)
    (h : mapItem order item = .ok ga) :
    ((getField item "price" = .undefined ∧
      optField (optField (getField item "price_set") "shop_money") "amount" = .undefined) →
      ga.price = 0) ∧
    (∀ s, jsOr (getField item "price")
        (jsOr (optField (optField (getField item "price_set") "shop_money") "amount")
          (.num 0)) = .str s →
      jsParseFloat s = none → ga.price = 0) ∧
    (truthy (getField item "quantity") = false → ga.quantity = .num 1) := by
  obtain ⟨hq, hp, -⟩ := mapItem_ok_inv order item ga h
  refine ⟨?_, ?_, ?_⟩
  · intro hmiss
    rw [hp, hmiss.1, hmiss.2]
    rfl
  · intro s hsel hpf
    rw [hp, hsel]
    simp [toNumber, jsToString, hpf]
  · intro hfq
    rw [hq]
    unfold jsOr
    rw [hfq]
    rfl

/-- Closed instance of C4: the item `{price: "not-a-number", quantity: 0}`
normalizes to price `0` and quantity `1`. -/
theorem C4_witness :
    Except.map Ga4Item.price
      (mapItem (.obj []) (.obj [("price", .str "not-a-number"), ("quantity", .num 0)])) = .ok 0 ∧
    Except.map Ga4Item.quantity
      (mapItem (.obj []) (.obj [("price", .str "not-a-number"), ("quantity", .num 0)]))
      = .ok (.num 1) := by
  constructor
  · exact congrArg Except.ok
      ((C4_numeric_defaulting (.obj [])
        (.obj [("price", .str "not-a-number"), ("quantity", .num 0)]) _ rfl).2.1
        "not-a-number" rfl rfl)
  · exact congrArg Except.ok
      ((C4_numeric_defaulting (.obj [])
        (.obj [("price", .str "not-a-number"), ("quantity", .num 0)]) _ rfl).2.2 rfl)

/-- Counterexample to C5 as stated: a source line item with quantity `-3`
(truthy, so `item.quantity || 1` keeps it) normalizes to quantity `-3`, which
is not an integer greater than or equal to 1. -/
theorem C5_counterexample :
    Except.map Ga4Item.quantity (mapItem (.obj []) (.obj [("quantity", .num (-3))]))
      = .ok (.num (-3)) ∧ ((-3 : ℚ) < 1) := by
  exact ⟨rfl, by norm_num⟩

/-- C5 (amended): the normalized quantity is the source quantity when that is
truthy and `1` otherwise; consequently it is an integer greater than or equal
to 1 whenever the source quantity is falsy/absent or a positive-integer
number — but a truthy non-integer or negative quantity passes through
unchanged. -/
theorem C5_amended (order item : JSVal) (ga : Ga4Item) (h : mapItem order item = .ok ga)
    (hq : truthy (getField item "quantity") = false ∨
      (∃ n : ℤ, getField item "quantity" = .num (n : ℚ) ∧ 1 ≤ n)) :
    ∃ m : ℤ, 1 ≤ m ∧ ga.quantity = .num (m : ℚ) := by
  obtain ⟨hqty, -⟩ := mapItem_ok_inv order item ga h
  rcases hq with hf | ⟨n, hn, h1⟩
  · refine ⟨1, le_refl 1, ?_⟩
    rw [hqty]
    unfold jsOr
    rw [hf]
    rfl
  · refine ⟨n, h1, ?_⟩
    rw [hqty, hn]
    unfold jsOr
    rw [if_pos ?_]
    show (truthy (.num (n : ℚ))) = true
    have hnz : (n : ℚ) ≠ 0 := by
      exact_mod_cast (by omega : n ≠ 0)
    simp [truthy, hnz]

/-- Closed instance of C5 (amended): quantity `0` normalizes to the integer
quantity `1`. -/
theorem C5_witness :
    Except.map Ga4Item.quantity (mapItem (.obj []) (.obj [("quantity", .num 0)]))
      = .ok (.num 1) := by
  obtain ⟨m, hm, hq⟩ :=
    C5_amended (.obj []) (.obj [("quantity", .num 0)]) _ rfl (Or.inl rfl)
  exact rfl

/-- C6: for every order whose tracking attributes contain none of `gclid`,
`gbraid`, `wbraid`, `utm_source`, `utm_medium`, `utm_campaign`, `utm_content`,
`utm_term` (each lookup comes back `undefined`), the serialized event carries
none of those keys at all: every corresponding optional field of the purchase
params is `none`, i.e. the key is absent from the output rather than present
with a null value. -/
theorem C6_attribution_omitted (order : JSVal) (ev : Ga4Event)
    (hev : mapOrder order = .ok ev)
    (hg : getAttr (attributesOf order) "gclid" = .ok .undefined)
    (hgb : getAttr (attributesOf order) "gbraid" = .ok .undefined)
    (hwb : getAttr (attributesOf order) "wbraid" = .ok .undefined)
    (hus : getAttr (attributesOf order) "utm_source" = .ok .undefined)
    (hum : getAttr (attributesOf order) "utm_medium" = .ok .undefined)
    (huc : getAttr (attributesOf order) "utm_campaign" = .ok .undefined)
    (hut : getAttr (attributesOf order) "utm_content" = .ok .undefined)
    (hue : getAttr (attributesOf order) "utm_term" = .ok .undefined) :
    ev.events.map (fun e => (e.params.gclid, e.params.gbraid, e.params.wbraid,
      e.params.utm_source, e.params.utm_medium, e.params.utm_campaign,
      e.params.utm_content, e.params.utm_term))
      = [(none, none, none, none, none, none, none, none)] := by
  obtain ⟨cid, g1, g2, g3, u1, u2, u3, u4, u5, its,
    hc, h1, h2, h3, h4, h5, h6, h7, h8, hi, hevb⟩ := mapOrder_ok_inv order ev hev
  obtain rfl : JSVal.undefined = g1 := Except.ok.inj (hg.symm.trans h1)
  obtain rfl : JSVal.undefined = g2 := Except.ok.inj (hgb.symm.trans h2)
  obtain rfl : JSVal.undefined = g3 := Except.ok.inj (hwb.symm.trans h3)
  obtain rfl : JSVal.undefined = u1 := Except.ok.inj (hus.symm.trans h4)
  obtain rfl : JSVal.undefined = u2 := Except.ok.inj (hum.symm.trans h5)
  obtain rfl : JSVal.undefined = u3 := Except.ok.inj (huc.symm.trans h6)
  obtain rfl : JSVal.undefined = u4 := Except.ok.inj (hut.symm.trans h7)
  obtain rfl : JSVal.undefined = u5 := Except.ok.inj (hue.symm.trans h8)
  subst hevb
  rfl

/-- Closed instance of C6: the order `{"id": 5}` has no tracking attributes at
all, and its serialized purchase params carry none of the attribution keys. -/
theorem C6_witness :
    Except.map (fun ev => ev.events.map (fun e => (e.params.gclid, e.params.gbraid,
      e.params.wbraid, e.params.utm_source, e.params.utm_medium, e.params.utm_campaign,
      e.params.utm_content, e.params.utm_term))) (mapOrder (.obj [("id", .num 5)]))
      = .ok [(none, none, none, none, none, none, none, none)] :=
  congrArg Except.ok
    (C6_attribution_omitted (.obj [("id", .num 5)]) _ rfl rfl rfl rfl rfl rfl rfl rfl rfl)

theorem strictField_ok_inv (v : JSVal) (k : String) (w : JSVal)
    (h : strictField v k = .ok w) : getField v k = w := by
  cases v with
  | undefined => exact absurd h (by simp [strictField])
  | null => exact absurd h (by simp [strictField])
  | bool b => exact Except.ok.inj h
  | num q => exact Except.ok.inj h
  | str s => exact Except.ok.inj h
  | arr xs => exact Except.ok.inj h
  | obj fs => exact Except.ok.inj h

theorem optField_of_not_obj (v : JSVal) (k : String) (h : ∀ fs, v ≠ .obj fs) :
    optField v k = .undefined := by
  cases v with
  | obj fs => exact absurd rfl (h fs)
  | undefined => rfl
  | null => rfl
  | bool b => rfl
  | num q => rfl
  | str s => rfl
  | arr xs => rfl

/-- Every normalized item delivered by a successful `mapItems` run comes from
`mapItem` on some source element. -/
theorem mapItems_mem (order : JSVal) (xs : List JSVal) (its : List Ga4Item)
    (h : mapItems order xs = .ok its) (it : Ga4Item) (hit : it ∈ its) :
    ∃ x, x ∈ xs ∧ mapItem order x = .ok it := by
  induction xs generalizing its with
  | nil =>
    obtain rfl : ([] : List Ga4Item) = its := Except.ok.inj h
    exact absurd hit (by simp)
  | cons x rest ih =>
    unfold mapItems at h
    simp only [bind_ok_iff, pure_ok_iff] at h
    obtain ⟨g, hg, gs, hgs, h⟩ := h
    obtain rfl : g :: gs = its := Except.ok.inj h
    rcases List.mem_cons.mp hit with rfl | hmem
    · exact ⟨x, List.mem_cons_self x rest, hg⟩
    · obtain ⟨y, hy, hmy⟩ := ih gs hgs hmem
      exact ⟨y, List.mem_cons_of_mem x hy, hmy⟩

/-- Every item produced by a successful `itemsOf` run has an `undefined`
brand: the source reads `vendor` off the line-items *array* (or a falsy
stand-in), which has no such named property. -/
theorem itemsOf_brand (order : JSVal) (its : List Ga4Item)
    (h : itemsOf order = .ok its) :
    ∀ it ∈ its, it.item_brand = .undefined := by
  intro it hit
  unfold itemsOf at h
  rw [bind_ok_iff] at h
  obtain ⟨liRaw, hli, h⟩ := h
  have hlr : getField order "line_items" = liRaw := strictField_ok_inv _ _ _ hli
  have hnobj : ∀ fs, liRaw ≠ .obj fs := by
    intro fs hobj
    subst hobj
    rw [show jsOr (JSVal.obj fs) (.arr []) = .obj fs from rfl] at h
    exact absurd h (by simp)
  cases hj : jsOr liRaw (.arr []) with
  | arr xs =>
    rw [hj] at h
    obtain ⟨x, hx, hmx⟩ := mapItems_mem order xs its h it hit
    obtain ⟨-, -, hbrand⟩ := mapItem_ok_inv order x it hmx
    rw [hbrand, optField_eq_getField order "line_items", hlr,
      optField_of_not_obj liRaw "vendor" hnobj]
    rfl
  | undefined => rw [hj] at h; exact absurd h (by simp)
  | null => rw [hj] at h; exact absurd h (by simp)
  | bool b => rw [hj] at h; exact absurd h (by simp)
  | num q => rw [hj] at h; exact absurd h (by simp)
  | str s => rw [hj] at h; exact absurd h (by simp)
  | obj fs => rw [hj] at h; exact absurd h (by simp)

/-- C8: for every order that maps successfully, the `item_brand` field of
every normalized line item is `undefined` (dropped entirely by
`JSON.stringify`): `order?.line_items?.vendor` reads `vendor` from the
line-items collection itself — an array parsed from JSON, which never has
that property — rather than from each individual item. -/
theorem C8_brand_always_absent (order : JSVal) (ev : Ga4Event)
    (hev : mapOrder order = .ok ev) :
    ∀ e ∈ ev.events, ∀ it ∈ e.params.items, it.item_brand = .undefined := by
  intro e he it hit
  obtain ⟨cid, g1, g2, g3, u1, u2, u3, u4, u5, its,
    -, -, -, -, -, -, -, -, -, hi, hevb⟩ := mapOrder_ok_inv order ev hev
  subst hevb
  simp only [buildEvent, List.mem_singleton] at he
  subst he
  exact itemsOf_brand order its hi it hit

/-- Closed instance of C8: an order with a vendor-carrying line item still
yields `item_brand = undefined`. -/
theorem C8_witness :
    Except.map (fun ev => ev.events.map (fun e => e.params.items.map Ga4Item.item_brand))
      (mapOrder (.obj [("id", .num 5),
        ("line_items", .arr [.obj [("product_id", .num 9), ("vendor", .str "Acme")]])]))
      = .ok [[JSVal.undefined]] := by
  have h := C8_brand_always_absent
    (.obj [("id", .num 5),
      ("line_items", .arr [.obj [("product_id", .num 9), ("vendor", .str "Acme")]])]) _ rfl
  exact rfl

/-- C7: the purchase params compute the monetary totals by falsy-fallback
chains exactly as claimed — value from `total_price`, else
`current_total_price`, else the nested shop-currency amount, defaulting to 0;
tax from `total_tax` defaulting to 0; shipping exclusively from the nested
shop-currency shipping amount defaulting to 0 (no flat field is consulted);
and currency from `currency`, else `presentment_currency`, else the literal
`"INR"`. -/
theorem C7_monetary_totals (order : JSVal) (ev : Ga4Event) (hev : mapOrder order = .ok ev) :
    ∃ p : Ga4Params, ev.events.map Ga4EventEntry.params = [p] ∧
      (truthy (getField order "total_price") = true →
        p.value = toNumber (getField order "total_price") 0) ∧
      (truthy (getField order "total_price") = false →
        truthy (getField order "current_total_price") = true →
        p.value = toNumber (getField order "current_total_price") 0) ∧
      (truthy (getField order "total_price") = false →
        truthy (getField order "current_total_price") = false →
        p.value = toNumber
          (optField (optField (getField order "total_price_set") "shop_money") "amount") 0) ∧
      (truthy (getField order "total_price") = false →
        truthy (getField order "current_total_price") = false →
        truthy (optField (optField (getField order "total_price_set") "shop_money") "amount")
          = false →
        p.value = 0) ∧
      (truthy (getField order "total_tax") = true →
        p.tax = toNumber (getField order "total_tax") 0) ∧
      (truthy (getField order "total_tax") = false → p.tax = 0) ∧
      (truthy (optField (optField (getField order "total_shipping_price_set") "shop_money")
          "amount") = true →
        p.shipping = toNumber
          (optField (optField (getField order "total_shipping_price_set") "shop_money")
            "amount") 0) ∧
      (truthy (optField (optField (getField order "total_shipping_price_set") "shop_money")
          "amount") = false →
        p.shipping = 0) ∧
      (truthy (getField order "currency") = true →
        p.currency = getField order "currency") ∧
      (truthy (getField order "currency") = false →
        truthy (getField order "presentment_currency") = true →
        p.currency = getField order "presentment_currency") ∧
      (truthy (getField order "currency") = false →
        truthy (getField order "presentment_currency") = false →
        p.currency = .str "INR") := by
  obtain ⟨cid, g1, g2, g3, u1, u2, u3, u4, u5, its,
    -, -, -, -, -, -, -, -, -, -, hevb⟩ := mapOrder_ok_inv order ev hev
  subst hevb
  refine ⟨_, rfl, ?_, ?_, ?_, ?_, ?_, ?_, ?_, ?_, ?_, ?_, ?_⟩
  · intro h1
    simp [buildEvent, jsOr, h1]
  · intro h1 h2
    simp [buildEvent, jsOr, h1, h2]
  · intro h1 h2
    simp [buildEvent, jsOr, h1, h2]
  · intro h1 h2 h3
    simp only [buildEvent, jsOr, h1, h2, Bool.false_eq_true, if_false]
    exact toNumber_falsy _ h3
  · intro h1
    simp [buildEvent, jsOr, h1]
  · intro h1
    simp [buildEvent, jsOr, h1]
    rfl
  · intro h1
    simp [buildEvent, jsOr, h1]
  · intro h1
    simp [buildEvent, jsOr, h1]
    rfl
  · intro h1
    simp [buildEvent, jsOr, h1]
  · intro h1 h2
    simp [buildEvent, jsOr, h1, h2]
  · intro h1 h2
    simp [buildEvent, jsOr, h1, h2]

/-- Closed instance of C7: the order `{"id": 7}` — no monetary fields at all —
yields value 0, tax 0, shipping 0, and currency `"INR"`. -/
theorem C7_witness :
    Except.map (fun ev => ev.events.map (fun e =>
        (e.params.value, e.params.tax, e.params.shipping, e.params.currency)))
      (mapOrder (.obj [("id", .num 7)])) = .ok [(0, 0, 0, JSVal.str "INR")] := by
  obtain ⟨p, hp, h1, h2, h3, h4, h5, h6, h7, h8, h9, h10, h11⟩ :=
    C7_monetary_totals (.obj [("id", .num 7)]) _ rfl
  exact rfl

/-- C10: an authenticated POST whose body parses to an object with no `id`
field, no `customer`, and no `client_id`/`_ga_cid` tracking attribute is not
rejected: provided the rest of the mapping succeeds and the collector
answers, the handler forwards an event whose `client_id` and `transaction_id`
are both the literal string `"undefined"` (from `String(undefined)`) and
responds 200 — the required order id is never validated. -/
theorem C10_missing_id_forwarded (cfg : Config) (ext : ExternalOps) (header : Option String)
    (raw : String) (order : JSVal) (ev : Ga4Event) (txt : String)
    (hv : verifyShopifyHmac cfg ext header raw = .ok true)
    (hp : ext.parseJson raw = .ok order)
    (hobj : ∃ fs, order = JSVal.obj fs)
    (hid : getField order "id" = .undefined)
    (hcust : getField order "customer" = .undefined)
    (ha : getAttr (attributesOf order) "client_id" = .ok .undefined)
    (hb : getAttr (attributesOf order) "_ga_cid" = .ok .undefined)
    (hm : mapOrder order = .ok ev)
    (hf : ext.fetchText (selectedEndpoint cfg) ev = .ok txt) :
    ev.client_id = "undefined" ∧
    ev.events.map (fun e => e.params.transaction_id) = ["undefined"] ∧
    handler cfg ext "POST" header raw = Response.mk 200
      (.ok (if strIncludes (selectedEndpoint cfg) "/debug/" then "GA4 DEBUG" else "GA4") txt) ∧
    collectorCalls cfg ext "POST" header raw = [(selectedEndpoint cfg, ev)] := by
  obtain ⟨fs, rfl⟩ := hobj
  have hstrict : strictField (JSVal.obj fs) "customer" = .ok .undefined := by
    show Except.ok (getField (JSVal.obj fs) "customer") = Except.ok JSVal.undefined
    rw [hcust]
  have hcid : clientId (JSVal.obj fs) (attributesOf (JSVal.obj fs)) = .ok (.str "undefined") := by
    unfold clientId
    rw [ha, ok_bind, if_neg (by simp [truthy]), hb, ok_bind, if_neg (by simp [truthy])]
    simp only [pure_bind]
    rw [hstrict, ok_bind, if_neg (by simp [optField, truthy]), hid]
    rfl
  obtain ⟨cid, g1, g2, g3, u1, u2, u3, u4, u5, its,
    hc, -, -, -, -, -, -, -, -, -, hevb⟩ := mapOrder_ok_inv _ ev hm
  obtain rfl : JSVal.str "undefined" = cid := Except.ok.inj (hcid.symm.trans hc)
  have hpre : handlerPre cfg ext "POST" header raw =
      .ok (.inr (selectedEndpoint cfg, ev)) := by
    unfold handlerPre
    rw [if_neg (by simp)]
    try simp only [pure_bind]
    rw [hv, ok_bind]
    rw [if_neg (by simp)]
    try simp only [pure_bind]
    rw [hp, ok_bind, hm, ok_bind]
    rfl
  refine ⟨?_, ?_, ?_, ?_⟩
  · rw [hevb]
    rfl
  · rw [hevb]
    show [jsToString (getField (JSVal.obj fs) "id")] = ["undefined"]
    rw [hid]
    rfl
  · unfold handler
    rw [hpre]
    show (match ext.fetchText (selectedEndpoint cfg) ev with
      | Except.error _ => Response.mk 500 (.err "Internal error")
      | Except.ok text => Response.mk 200
          (.ok (if strIncludes (selectedEndpoint cfg) "/debug/" then "GA4 DEBUG" else "GA4")
            text)) = _
    rw [hf]
  · unfold collectorCalls
    rw [hpre]

/-- Closed instance of C10: the body `{}` — parsed to an order with no id, no
customer, no tracking attributes — is forwarded with
`client_id = transaction_id = "undefined"` and answered 200. -/
theorem C10_witness :
    (handler
      { measurementId := "G-X", apiSecret := "s", shopifyWebhookSecret := "", ga4DebugMode := none }
      { hmacBase64 := fun _ _ => "", parseJson := fun _ => .ok (.obj []),
        fetchText := fun _ _ => .ok "collector-reply" }
      "POST" none "{}").status = 200 := by
  obtain ⟨h1, h2, h3, h4⟩ := C10_missing_id_forwarded
    { measurementId := "G-X", apiSecret := "s", shopifyWebhookSecret := "", ga4DebugMode := none }
    { hmacBase64 := fun _ _ => "", parseJson := fun _ => .ok (.obj []),
      fetchText := fun _ _ => .ok "collector-reply" }
    none "{}" (.obj []) _ "collector-reply"
    rfl rfl ⟨[], rfl⟩ rfl rfl rfl rfl rfl rfl
  rw [h3]
